import Mathlib

set_option linter.all false

/- Shallow embedding of src/src/background_workers.c (RedisAI per-device
background scheduler).

The embedding models one worker thread operating on one device queue.
The queue is a list of RunInfo identifiers (each queue node carries a
pointer to a RedisAI_RunInfo; re-enqueueing allocates a fresh node wrapping
the same RunInfo, so a list of identifiers is a faithful model of the queue
contents).  All external interfaces consumed by the scheduler
(RedisAI_DagCurrentOpAndInfo, RedisAI_DagOpBatchInfo,
RedisAI_DagOpBatchingMatch, and the reads of dagError / dagRefCount /
client performed under the dag mutex) are modelled as oracles packaged in
an Env; the scheduler file itself never writes any of those fields, so the
oracles are read-only.  Queue mutations performed by other threads while
the queue mutex is released during the RUN window are modelled by an
arbitrary interference function applied to the queue at that point.
Machine integers: queue lengths and batch sizes are C size_t / long long
values used as counts, modelled as Nat (no overflow is reachable for
realistic tensor dimensions); dagRefCount is a C int, modelled as Int. -/

namespace BackgroundWorkers

abbrev RId := Nat

/-- Result of RedisAI_DagCurrentOpAndInfo (background_workers.c lines 165-170):
the four flags describing the current op of a DAG on this device. -/
structure OpInfo where
  ready : Bool
  batchable : Bool
  deviceComplete : Bool
  dagComplete : Bool
deriving DecidableEq, Repr

/-- Result of RedisAI_DagOpBatchInfo (lines 217-219): target batch size,
minimum batch size, and the input size along the 0-th (batch) dimension. -/
structure BatchInfo where
  batchsize : Nat
  minbatchsize : Nat
  inbatchsize : Nat
deriving DecidableEq, Repr

/-- Result of RedisAI_DagOpBatchingMatch (lines 256-260): whether two ops
may fuse, and the batch contribution of the second op. -/
structure MatchInfo where
  batched : Bool
  nextBatchsize : Nat
deriving DecidableEq, Repr

/-- The fields of a RedisAI_RunInfo that the worker reads under the dag
mutex (lines 346-349 and 370-372): error flag, reference count, client. -/
structure DagState where
  dagError : Bool
  dagRefCount : Int
  hasClient : Bool
deriving DecidableEq, Repr

/-- Oracles for all external interfaces consumed by the scheduler during
one drain of the queue.  interference models queue mutations by other
threads while the queue mutex is released during the RUN window. -/
structure Env where
  opInfo : RId → OpInfo
  batchInfo : RId → BatchInfo
  matchInfo : RId → RId → MatchInfo
  dagState : RId → DagState
  interference : List RId → List RId

/-- Observable actions of the worker: calls into the execution interface,
client unblocking, freeing of evicted queue nodes, and the 1 ms sleep. -/
inductive Event where
  | runSingle (r : RId)
  | runBatched (rs : List RId)
  | unblock (r : RId)
  | freeItem (r : RId)
  | sleepMs
deriving DecidableEq, Repr

/-- Result of the inner batch-extension scan (lines 235-283): accepted
items, running batch size, and the queue suffix left after removing the
accepted items. -/
structure BatchScanRes where
  acc : List RId
  sum : Nat
  rest : List RId
deriving DecidableEq, Repr

/-- Result of the SCAN phase, i.e. the while(item) loop (lines 138-294):
the four disposition flags, the evicted items, the queue left after
eviction, and whether the scan fell off the end of the queue (item ==
NULL at line 298). -/
structure ScanResult where
  do_unblock : Bool
  do_run : Bool
  do_retry : Bool
  device_complete : Bool
  evicted : List RId
  rest : List RId
  isNull : Bool
deriving DecidableEq, Repr

/-- Result of one iteration of the inner drain loop (lines 118-434): the
queue afterwards, the events emitted, and whether the worker released the
mutex and returned to the condition-variable WAIT (line 301). -/
structure StepOut where
  queue : List RId
  events : List Event
  waited : Bool
deriving DecidableEq, Repr

/-- Inner batch-extension scan, lines 235-283 of background_workers.c.
Walks the queue suffix after the head: items that are not ready or not
batchable or do not match are skipped (left in place); an item whose
contribution would push the running sum past batchsize stops the scan;
otherwise the item is accepted and the sum grows. -/
def batchScan (env : Env) (head : RId) (bsz : Nat) : Nat → List RId → BatchScanRes
  | cur, [] => ⟨[], cur, []⟩
  | cur, r :: rs =>
    let oi := env.opInfo r
    if oi.ready = false ∨ oi.batchable = false then
      let res := batchScan env head bsz cur rs
      ⟨res.acc, res.sum, r :: res.rest⟩
    else
      let mi := env.matchInfo head r
      if mi.batched = false then
        let res := batchScan env head bsz cur rs
        ⟨res.acc, res.sum, r :: res.rest⟩
      else if bsz < cur + mi.nextBatchsize then
        ⟨[], cur, r :: rs⟩
      else
        let res := batchScan env head bsz (cur + mi.nextBatchsize) rs
        ⟨r :: res.acc, res.sum, res.rest⟩

/-- When the while(item) loop abandons a head and advances to the next
item (line 293), the abandoned head stays in the queue: it is prepended
to whatever the rest of the scan leaves behind. -/
def withHeadRest (r : RId) (s : ScanResult) : ScanResult :=
  { s with rest := r :: s.rest }

/-- The while(item) SCAN loop, lines 138-294.  carriedRun is the value of
the do_run local at loop entry: the dagComplete branch (lines 174-177)
breaks without resetting do_run, so a do_run latched by a previous
iteration survives into the result there.  All other breaking branches
assign the flags they report.  Advancing past a head whose tentative
batch missed minbatchsize (line 293) recurses with do_run latched to
true and keeps the abandoned head in the queue. -/
def scanLoop (env : Env) (carriedRun : Bool) : List RId → ScanResult
  | [] => ⟨false, false, false, false, [], [], true⟩
  | r :: rs =>
    let oi := env.opInfo r
    if oi.dagComplete = true then
      ⟨true, carriedRun, false, false, [r], rs, false⟩
    else if oi.deviceComplete = true then
      ⟨false, false, false, true, [r], rs, false⟩
    else if oi.ready = false then
      ⟨false, false, true, false, [r], rs, false⟩
    else if oi.batchable = false then
      ⟨false, true, false, false, [r], rs, false⟩
    else
      let bi := env.batchInfo r
      if bi.inbatchsize = 0 ∨ bi.batchsize ≤ bi.inbatchsize then
        ⟨false, true, false, false, [r], rs, false⟩
      else
        let res := batchScan env r bi.batchsize bi.inbatchsize rs
        if bi.minbatchsize = 0 ∨ bi.minbatchsize ≤ res.sum then
          ⟨false, true, false, false, r :: res.acc, res.rest, false⟩
        else
          withHeadRest r (scanLoop env true rs)

/-- The post-run error loop, lines 342-359: for each run info in the
batch, the error flag and reference count are read under the dag mutex,
and the client is unblocked when the error flag is set, the reference
count is zero and a client is still bound. -/
def errorUnblocks (env : Env) (l : List RId) : List Event :=
  l.filterMap fun r =>
    let d := env.dagState r
    if d.dagError && d.dagRefCount == 0 && d.hasClient then
      some (Event.unblock r)
    else none

/-- The value of the run_error local after the loop of lines 342-359:
run_error is assigned dagError on every loop iteration, so it ends up
holding the error flag of the LAST member of the batch. -/
def lastError (env : Env) : List RId → Bool
  | [] => false
  | [r] => (env.dagState r).dagError
  | _ :: r :: rs => lastError env (r :: rs)

/-- The do_retry requeue, lines 387-406: if the queue still holds another
item, pop it, push the retried run info to the front, then push the popped
item in front of it; otherwise push the retried run info to the front and
sleep for a millisecond. -/
def retryQueue (e0 : RId) (q0 : List RId) : List RId × List Event :=
  match q0 with
  | [] => ([e0], [Event.sleepMs])
  | x :: xs => (x :: e0 :: xs, [])

/-- The EVICT / RUN / REFLECT phases, lines 296-431, applied to the result
of the SCAN phase.  If the scan fell off the end of the queue the worker
frees its arrays, unlocks and returns to WAIT (lines 298-303).  Otherwise:
the RUN phase releases the queue mutex (interference window), calls the
single or batched session step and performs the post-run error loop
(lines 318-360); the do_unblock path re-reads the reference count and
unblocks (lines 366-379); the do_retry path requeues with a one-slot
demotion (lines 384-407); a successful run pushes all evicted items back
to the front in reverse order (lines 411-421); terminal dispositions free
the evicted nodes (lines 425-429). -/
def reflect (env : Env) (q : List RId) (s : ScanResult) : StepOut :=
  if s.isNull = true then ⟨q, [], true⟩ else
  match s.evicted with
  | [] => ⟨q, [], true⟩
  | e0 :: es =>
    let q0 := if s.do_run then env.interference s.rest else s.rest
    let runError := if s.do_run then lastError env (e0 :: es) else false
    let runEvents : List Event :=
      if s.do_run then
        (if es.isEmpty then [Event.runSingle e0]
         else [Event.runBatched (e0 :: es)]) ++ errorUnblocks env (e0 :: es)
      else []
    let unblockEvents : List Event :=
      if s.do_unblock then
        (if (env.dagState e0).dagRefCount == 0 && (env.dagState e0).hasClient then
          [Event.unblock e0]
         else [])
      else []
    let rq := if s.do_retry then retryQueue e0 q0 else (q0, [])
    let q2 := if s.do_run && !runError then (e0 :: es) ++ rq.1 else rq.1
    let freeEvents : List Event :=
      if s.device_complete || s.do_unblock || runError then
        (e0 :: es).map Event.freeItem
      else []
    ⟨q2, runEvents ++ unblockEvents ++ rq.2 ++ freeEvents, false⟩

/-- One iteration of the inner drain loop (lines 118-434): SCAN followed
by EVICT / RUN / REFLECT. -/
def stepBody (env : Env) (q : List RId) : StepOut :=
  reflect env q (scanLoop env false q)

/-- The inner drain loop of the worker (while run_queue_len greater than
zero, lines 118-434), fuel-bounded: iterates stepBody, collecting the
emitted events, until the queue is empty, the worker returns to WAIT, or
the fuel runs out. -/
def runWorker (env : Env) : Nat → List RId → List Event
  | 0, _ => []
  | n + 1, q =>
    if q = [] then []
    else
      let s := stepBody env q
      if s.waited then s.events else s.events ++ runWorker env n s.queue

/-- Aggregate size of a committed batch with head h and accepted extension
acc: the input size of the head along the batch dimension plus the batch
contributions reported by RedisAI_DagOpBatchingMatch for each accepted
item. -/
def batchAggregate (env : Env) (h : RId) (acc : List RId) : Nat :=
  (env.batchInfo h).inbatchsize +
    (acc.map fun r => (env.matchInfo h r).nextBatchsize).sum

/- Registry model: strToUpper and ensureRunQueue, lines 55-101. -/

/-- ASCII upper-casing of one byte, the effect of toupper in the C locale
(background_workers.c line 59). -/
def asciiToUpper (c : Char) : Char :=
  if 97 ≤ c.toNat ∧ c.toNat ≤ 122 then Char.ofNat (c.toNat - 32) else c

/-- Model of strToUpper (lines 55-62): duplicate the string with every
character upper-cased. -/
def strToUpper (s : String) : String :=
  String.mk (s.data.map asciiToUpper)

/-- Association-list lookup modelling AI_dictFind on the run-queue
registry (line 74). -/
def lookupDevice (d : String) : List (String × Nat) → Option Nat
  | [] => none
  | (k, v) :: rest => if k = d then some v else lookupDevice d rest

/-- Outcome of ensureRunQueue: REDISMODULE_OK together with the
RunQueueInfo record (identified by a registry id), or REDISMODULE_ERR. -/
inductive EnsureResult where
  | ok (info : Nat)
  | err
deriving DecidableEq, Repr

/-- State of the global run_queues registry: whether the dict was
initialised, its entries keyed by upper-cased device name, and the
identity used for the next freshly allocated RunQueueInfo record. -/
structure RegistryState where
  initialized : Bool
  entries : List (String × Nat)
  nextId : Nat
deriving DecidableEq, Repr

/-- Model of ensureRunQueue (lines 66-101).  A NULL registry yields an
error.  The device string is upper-cased; an existing entry is returned
as is.  Otherwise a fresh record is allocated and the worker pool is
spawned: spawnOk abstracts the success of every pthread_create call
(lines 87-93); on failure the record is torn down with freeRunQueueInfo
and an error is returned before AI_dictAdd runs, so the registry is
untouched; on success the record is inserted. -/
def ensureRunQueue (spawnOk : Bool) (st : RegistryState) (devicestr : String) :
    EnsureResult × RegistryState :=
  if st.initialized = false then (EnsureResult.err, st)
  else
    let d := strToUpper devicestr
    match lookupDevice d st.entries with
    | some v => (EnsureResult.ok v, st)
    | none =>
      if spawnOk then
        (EnsureResult.ok st.nextId, ⟨true, (d, st.nextId) :: st.entries, st.nextId + 1⟩)
      else (EnsureResult.err, st)

/- Concrete environments used to evaluate the model on explicit inputs.
Each one describes an admissible behaviour of the external interfaces:
the scheduler file never writes the dag fields, so any oracle valuation
is a possible external state. -/

/-- Environment with two DAGs on the queue: DAG 1 is ready and batchable
with batchsize 4, minbatchsize 3 and input size 1 but finds no batching
partner; DAG 2 is dag-complete with reference count 0 and a live client,
the normal state of a DAG whose last op already ran on every device. -/
def c1Env : Env where
  opInfo r := if r = 1 then ⟨true, true, false, false⟩ else ⟨false, false, false, true⟩
  batchInfo _ := ⟨4, 3, 1⟩
  matchInfo _ _ := ⟨false, 0⟩
  dagState _ := ⟨false, 0, true⟩
  interference l := l

/-- Environment with one DAG whose ops on this device are all done while
the DAG as a whole is not: reference count 1, client still bound. -/
def c2Env : Env where
  opInfo _ := ⟨false, false, true, false⟩
  batchInfo _ := ⟨0, 0, 0⟩
  matchInfo _ _ := ⟨false, 0⟩
  dagState _ := ⟨false, 1, true⟩
  interference l := l

/-- Environment with two batchable DAGs that fuse into one batch of
size 2 (batchsize 4, no minimum); after the run DAG 1 carries a sticky
error with reference count 1 while DAG 2, the last batch member, does
not. -/
def c3Env : Env where
  opInfo _ := ⟨true, true, false, false⟩
  batchInfo _ := ⟨4, 0, 1⟩
  matchInfo _ _ := ⟨true, 1⟩
  dagState r := if r = 1 then ⟨true, 1, true⟩ else ⟨false, 1, true⟩
  interference l := l

/-- Environment with two batchable DAGs of size 1 each, batchsize 4 and
minbatchsize 2, so the scan commits a batch of aggregate size 2. -/
def c4Env : Env where
  opInfo _ := ⟨true, true, false, false⟩
  batchInfo _ := ⟨4, 2, 1⟩
  matchInfo _ _ := ⟨true, 1⟩
  dagState _ := ⟨false, 1, true⟩
  interference l := l

/-- Environment where the head DAG is batchable with minbatchsize 3 but
only reaches aggregate size 1, while the DAG behind it is ready and not
batchable, so it can run on its own. -/
def c5Env : Env where
  opInfo r := if r = 1 then ⟨true, true, false, false⟩ else ⟨true, false, false, false⟩
  batchInfo _ := ⟨4, 3, 1⟩
  matchInfo _ _ := ⟨false, 0⟩
  dagState _ := ⟨false, 1, true⟩
  interference l := l

/-- Environment where DAG 1 is not ready (its inputs are still being
produced on another device) and DAG 2 is ready and not batchable. -/
def c6Env : Env where
  opInfo r := if r = 1 then ⟨false, false, false, false⟩ else ⟨true, false, false, false⟩
  batchInfo _ := ⟨0, 0, 0⟩
  matchInfo _ _ := ⟨false, 0⟩
  dagState _ := ⟨false, 1, true⟩
  interference l := l

/-- Environment where DAG 1 is ready and not batchable and no DAG has an
error after the run. -/
def c7Env : Env where
  opInfo _ := ⟨true, false, false, false⟩
  batchInfo _ := ⟨0, 0, 0⟩
  matchInfo _ _ := ⟨false, 0⟩
  dagState _ := ⟨false, 1, true⟩
  interference l := l

/-- Environment where the head DAG is ready and batchable but its own
input size along the batch dimension is 7, exceeding the target batch
size 4. -/
def c10Env : Env where
  opInfo _ := ⟨true, true, false, false⟩
  batchInfo _ := ⟨4, 0, 7⟩
  matchInfo _ _ := ⟨true, 1⟩
  dagState _ := ⟨false, 1, true⟩
  interference l := l

/-- An initialised registry with no entries. -/
def regSt0 : RegistryState := ⟨true, [], 0⟩

/- Helper lemmas about the scan. -/

/-- The running sum returned by the batch-extension scan equals the
starting size plus the contributions of the accepted items. -/
theorem batchScan_sum (env : Env) (h : RId) (bsz : Nat) :
    ∀ (l : List RId) (cur : Nat),
      (batchScan env h bsz cur l).sum =
        cur + ((batchScan env h bsz cur l).acc.map
          fun r => (env.matchInfo h r).nextBatchsize).sum := by
  intro l
  induction l with
  | nil => intro cur; simp [batchScan]
  | cons r rs ih =>
    intro cur
    simp only [batchScan]
    split
    · simpa using ih cur
    · split
      · simpa using ih cur
      · split
        · simp
        · have := ih (cur + (env.matchInfo h r).nextBatchsize)
          simp only [List.map_cons, List.sum_cons]
          omega

/-- The batch-extension scan never lets the running sum pass the target
batch size. -/
theorem batchScan_le (env : Env) (h : RId) (bsz : Nat) :
    ∀ (l : List RId) (cur : Nat), cur ≤ bsz →
      (batchScan env h bsz cur l).sum ≤ bsz := by
  intro l
  induction l with
  | nil => intro cur hc; simpa [batchScan] using hc
  | cons r rs ih =>
    intro cur hc
    simp only [batchScan]
    split
    · simpa using ih cur hc
    · split
      · simpa using ih cur hc
      · split
        · simpa using hc
        · next hlt => exact ih _ (Nat.le_of_not_lt hlt)

/-- Combined inventory of the possible scan outcomes: a retry comes with
a single evicted item and all other flags cleared; a run disposition
comes with a non-empty evicted list, no retry and no device-complete
flag; a scan that did not fall off the end of the queue evicted at least
one item. -/
theorem scanLoop_shape (env : Env) :
    ∀ (q : List RId) (c : Bool),
      ((scanLoop env c q).do_retry = true →
        (scanLoop env c q).do_run = false ∧ (scanLoop env c q).do_unblock = false ∧
        (scanLoop env c q).device_complete = false ∧ (scanLoop env c q).isNull = false ∧
        ∃ r, (scanLoop env c q).evicted = [r]) ∧
      ((scanLoop env c q).do_run = true →
        (scanLoop env c q).do_retry = false ∧
        (scanLoop env c q).device_complete = false ∧
        (scanLoop env c q).isNull = false ∧
        ∃ e0 es, (scanLoop env c q).evicted = e0 :: es) ∧
      ((scanLoop env c q).isNull = false →
        ∃ e0 es, (scanLoop env c q).evicted = e0 :: es) := by
  intro q
  induction q with
  | nil => intro c; refine ⟨?_, ?_, ?_⟩ <;> simp [scanLoop]
  | cons r rs ih =>
    intro c
    simp only [scanLoop]
    by_cases h1 : (env.opInfo r).dagComplete = true
    · simp only [if_pos h1]
      refine ⟨?_, ?_, ?_⟩ <;> simp
    · simp only [if_neg h1]
      by_cases h2 : (env.opInfo r).deviceComplete = true
      · simp only [if_pos h2]
        refine ⟨?_, ?_, ?_⟩ <;> simp
      · simp only [if_neg h2]
        by_cases h3 : (env.opInfo r).ready = false
        · simp only [if_pos h3]
          refine ⟨?_, ?_, ?_⟩ <;> simp
        · simp only [if_neg h3]
          by_cases h4 : (env.opInfo r).batchable = false
          · simp only [if_pos h4]
            refine ⟨?_, ?_, ?_⟩ <;> simp
          · simp only [if_neg h4]
            by_cases h5 : (env.batchInfo r).inbatchsize = 0 ∨
                (env.batchInfo r).batchsize ≤ (env.batchInfo r).inbatchsize
            · simp only [if_pos h5]
              refine ⟨?_, ?_, ?_⟩ <;> simp
            · simp only [if_neg h5]
              by_cases h6 : (env.batchInfo r).minbatchsize = 0 ∨
                  (env.batchInfo r).minbatchsize ≤
                    (batchScan env r (env.batchInfo r).batchsize
                      (env.batchInfo r).inbatchsize rs).sum
              · simp only [if_pos h6]
                refine ⟨?_, ?_, ?_⟩ <;> simp
              · simp only [if_neg h6, withHeadRest]
                refine ⟨?_, ?_, ?_⟩
                · intro hr
                  have hx := (ih true).1 (by simpa using hr)
                  simpa using hx
                · intro hr
                  have hx := (ih true).2.1 (by simpa using hr)
                  simpa using hx
                · intro hn
                  have hx := (ih true).2.2 (by simpa using hn)
                  simpa using hx

/-- A retry disposition comes with a single evicted item and all other
flags cleared, and the scan did not fall off the end of the queue. -/
theorem scanLoop_retry_shape (env : Env) (q : List RId) (c : Bool)
    (hr : (scanLoop env c q).do_retry = true) :
    (scanLoop env c q).do_run = false ∧ (scanLoop env c q).do_unblock = false ∧
    (scanLoop env c q).device_complete = false ∧ (scanLoop env c q).isNull = false ∧
    ∃ r, (scanLoop env c q).evicted = [r] :=
  (scanLoop_shape env q c).1 hr

/-- A run disposition comes with a non-empty evicted list, no retry, no
device-complete flag, and the scan did not fall off the end of the
queue. -/
theorem scanLoop_run_shape (env : Env) (q : List RId) (c : Bool)
    (hr : (scanLoop env c q).do_run = true) :
    (scanLoop env c q).do_retry = false ∧
    (scanLoop env c q).device_complete = false ∧
    (scanLoop env c q).isNull = false ∧
    ∃ e0 es, (scanLoop env c q).evicted = e0 :: es :=
  (scanLoop_shape env q c).2.1 hr

/-- A scan that did not fall off the end of the queue evicted at least
one item. -/
theorem scanLoop_evicted_shape (env : Env) (q : List RId) (c : Bool)
    (hn : (scanLoop env c q).isNull = false) :
    ∃ e0 es, (scanLoop env c q).evicted = e0 :: es :=
  (scanLoop_shape env q c).2.2 hn

/-- Whenever the scan evicts two or more items, they form a committed
batch: they satisfy both the target bound and the minimum-batch
condition read from the batch info of the head. -/
theorem scanLoop_batch_bounds (env : Env) :
    ∀ (q : List RId) (c : Bool) (hd a : RId) (l : List RId),
      (scanLoop env c q).evicted = hd :: a :: l →
      batchAggregate env hd (a :: l) ≤ (env.batchInfo hd).batchsize ∧
      ((env.batchInfo hd).minbatchsize = 0 ∨
        (env.batchInfo hd).minbatchsize ≤ batchAggregate env hd (a :: l)) := by
  intro q
  induction q with
  | nil => intro c hd a l hev; simp [scanLoop] at hev
  | cons r rs ih =>
    intro c hd a l hev
    simp only [scanLoop] at hev
    by_cases h1 : (env.opInfo r).dagComplete = true
    · rw [if_pos h1] at hev; simp at hev
    · rw [if_neg h1] at hev
      by_cases h2 : (env.opInfo r).deviceComplete = true
      · rw [if_pos h2] at hev; simp at hev
      · rw [if_neg h2] at hev
        by_cases h3 : (env.opInfo r).ready = false
        · rw [if_pos h3] at hev; simp at hev
        · rw [if_neg h3] at hev
          by_cases h4 : (env.opInfo r).batchable = false
          · rw [if_pos h4] at hev; simp at hev
          · rw [if_neg h4] at hev
            by_cases h5 : (env.batchInfo r).inbatchsize = 0 ∨
                (env.batchInfo r).batchsize ≤ (env.batchInfo r).inbatchsize
            · rw [if_pos h5] at hev; simp at hev
            · rw [if_neg h5] at hev
              by_cases h6 : (env.batchInfo r).minbatchsize = 0 ∨
                  (env.batchInfo r).minbatchsize ≤
                    (batchScan env r (env.batchInfo r).batchsize
                      (env.batchInfo r).inbatchsize rs).sum
              · rw [if_pos h6] at hev
                obtain ⟨hrh, hacc⟩ := List.cons.inj hev
                subst hrh
                have hsum := batchScan_sum env r (env.batchInfo r).batchsize rs
                  (env.batchInfo r).inbatchsize
                have hle : (env.batchInfo r).inbatchsize ≤ (env.batchInfo r).batchsize := by
                  rcases Nat.lt_or_ge (env.batchInfo r).inbatchsize
                      (env.batchInfo r).batchsize with hlt | hge
                  · exact Nat.le_of_lt hlt
                  · exact absurd (Or.inr hge) h5
                have hbound := batchScan_le env r (env.batchInfo r).batchsize rs
                  (env.batchInfo r).inbatchsize hle
                have hagg : batchAggregate env r (a :: l) =
                    (batchScan env r (env.batchInfo r).batchsize
                      (env.batchInfo r).inbatchsize rs).sum := by
                  rw [batchAggregate, ← hacc, hsum]
                constructor
                · rw [hagg]; exact hbound
                · rw [hagg]; exact h6
              · rw [if_neg h6] at hev
                exact ih true hd a l (by simpa [withHeadRest] using hev)

/-- If no member of a list has its error flag set, the run_error value
computed by the post-run loop is false. -/
theorem lastError_eq_false (env : Env) :
    ∀ l : List RId, (∀ r ∈ l, (env.dagState r).dagError = false) →
      lastError env l = false
  | [], _ => rfl
  | [r], h => by
    have := h r (by simp)
    simpa [lastError] using this
  | r :: r2 :: rs, h => by
    simp only [lastError]
    exact lastError_eq_false env (r2 :: rs) fun x hx => h x (List.mem_cons_of_mem _ hx)

/-- Every event produced by the post-run error loop is an unblock
event. -/
theorem mem_errorUnblocks (env : Env) (l : List RId) (e : Event)
    (he : e ∈ errorUnblocks env l) : ∃ r, e = Event.unblock r := by
  simp only [errorUnblocks, List.mem_filterMap] at he
  obtain ⟨r, _, hr⟩ := he
  by_cases hc : ((env.dagState r).dagError && (env.dagState r).dagRefCount == 0 &&
      (env.dagState r).hasClient) = true
  · rw [if_pos hc] at hr
    exact ⟨r, (Option.some.inj hr).symm⟩
  · rw [if_neg hc] at hr
    exact absurd hr (by simp)

/-- The worker returns to the condition-variable WAIT exactly when the
scan fell off the end of the queue. -/
theorem stepBody_waited (env : Env) (q : List RId) :
    (stepBody env q).waited = (scanLoop env false q).isNull := by
  by_cases hnull : (scanLoop env false q).isNull = true
  · rw [hnull, stepBody, reflect, if_pos hnull]
  · obtain ⟨e0, es, hev⟩ := scanLoop_evicted_shape env q false
      (Bool.not_eq_true _ ▸ hnull)
    rw [stepBody, reflect, if_neg hnull, hev]
    simp [Bool.not_eq_true _ ▸ hnull]

/-- A batched execution event can only arise from a run disposition whose
evicted list is exactly the executed batch, and that batch has at least
two members. -/
theorem runBatched_mem_step (env : Env) (q : List RId) (rs : List RId)
    (hm : Event.runBatched rs ∈ (stepBody env q).events) :
    (scanLoop env false q).evicted = rs ∧ ∃ hd a l, rs = hd :: a :: l := by
  rw [stepBody, reflect] at hm
  by_cases hnull : (scanLoop env false q).isNull = true
  · rw [if_pos hnull] at hm
    simp at hm
  · rw [if_neg hnull] at hm
    obtain ⟨e0, es, hev⟩ := scanLoop_evicted_shape env q false
      (Bool.not_eq_true _ ▸ hnull)
    rw [hev] at hm
    dsimp only at hm
    simp only [List.mem_append] at hm
    rcases hm with (((hm | hm) | hm) | hm)
    · by_cases hdr : (scanLoop env false q).do_run = true
      · rw [if_pos hdr] at hm
        simp only [List.mem_append] at hm
        rcases hm with hm | hm
        · rcases hes : es with _ | ⟨a, l⟩
          · rw [hes] at hm
            simp at hm
          · rw [hes] at hm
            simp only [List.isEmpty_cons, Bool.false_eq_true, if_false,
              List.mem_singleton] at hm
            obtain hrs := (Event.runBatched.inj hm).symm
            exact ⟨by rw [hev, hes, hrs], e0, a, l, by rw [hrs]⟩
        · obtain ⟨r, hr⟩ := mem_errorUnblocks env (e0 :: es) _ hm
          simp at hr
      · rw [if_neg hdr] at hm
        simp at hm
    · by_cases hdu : (scanLoop env false q).do_unblock = true
      · rw [if_pos hdu] at hm
        by_cases hc : ((env.dagState e0).dagRefCount == 0 &&
            (env.dagState e0).hasClient) = true
        · rw [if_pos hc] at hm
          simp at hm
        · rw [if_neg hc] at hm
          simp at hm
      · rw [if_neg hdu] at hm
        simp at hm
    · by_cases hdt : (scanLoop env false q).do_retry = true
      · rw [if_pos hdt] at hm
        rcases hq0 : (if (scanLoop env false q).do_run = true then
            env.interference (scanLoop env false q).rest
          else (scanLoop env false q).rest) with _ | ⟨x, xs⟩
        · rw [hq0] at hm
          simp [retryQueue] at hm
        · rw [hq0] at hm
          simp [retryQueue] at hm
      · rw [if_neg hdt] at hm
        simp at hm
    · by_cases hfc : ((scanLoop env false q).device_complete ||
          (scanLoop env false q).do_unblock ||
          (if (scanLoop env false q).do_run = true then
            lastError env (e0 :: es) else false)) = true
      · rw [if_pos hfc] at hm
        simp at hm
      · rw [if_neg hfc] at hm
        simp at hm

/- Claim theorems. -/

/-- Claim C1 (at-most-once unblock) fails on the code: in the environment
c1Env the queue holds a batchable DAG whose tentative batch misses its
minimum batch size, followed by a dag-complete DAG with reference count 0
and a live client.  The while(item) loop latches do_run at the first item
and then breaks at the second with do_unblock set but do_run still set
(line 174 does not clear do_run), so the dag-complete DAG is executed,
unblocked, pushed back to the front by the successful-run requeue, and
unblocked a second time on the next pass: two UnblockClient calls are
made for RunInfo 2 in one drain of the queue. -/
theorem c1_double_unblock :
    (runWorker c1Env 2 [1, 2]).count (Event.unblock 2) = 2 ∧
    runWorker c1Env 2 [1, 2] =
      [Event.runSingle 2, Event.unblock 2, Event.freeItem 2,
       Event.unblock 2, Event.freeItem 2] := by
  decide

/-- Claim C2 counterexample: in the environment c2Env the scan observes
deviceComplete true and dagComplete false for the head DAG, whose
reference count is 1 and whose client is still bound.  The claim says the
REFLECT phase decrements the reference count (yielding 0) and therefore
calls UnblockClient; the code only frees the evicted node and emits no
unblock call, and nothing in background_workers.c ever writes the
reference count. -/
theorem c2_counterexample :
    (c2Env.opInfo 1).deviceComplete = true ∧ (c2Env.opInfo 1).dagComplete = false ∧
    (c2Env.dagState 1).dagRefCount = 1 ∧ (c2Env.dagState 1).hasClient = true ∧
    (stepBody c2Env [1]).events = [Event.freeItem 1] ∧
    Event.unblock 1 ∉ (stepBody c2Env [1]).events := by
  decide

/-- Claim C2 as amended: whenever the scan observes deviceComplete true
and dagComplete false for the head DAG, the REFLECT phase removes the
entry from the queue and frees the evicted queue-item node, and does
nothing else: no execution, no UnblockClient call, and no write to the
reference count (which background_workers.c never modifies). -/
theorem c2_device_complete_reflect (env : Env) (h : RId) (t : List RId)
    (hdev : (env.opInfo h).deviceComplete = true)
    (hdag : (env.opInfo h).dagComplete = false) :
    stepBody env (h :: t) = ⟨t, [Event.freeItem h], false⟩ := by
  have hscan : scanLoop env false (h :: t) =
      ⟨false, false, false, true, [h], t, false⟩ := by
    simp [scanLoop, hdev, hdag]
  rw [stepBody, hscan, reflect]
  simp

/-- Witness for c2_device_complete_reflect at the concrete environment
c2Env with a single-item queue. -/
theorem c2_witness : stepBody c2Env [1] = ⟨[], [Event.freeItem 1], false⟩ :=
  c2_device_complete_reflect c2Env 1 [] (by decide) (by decide)

/-- Claim C3 (error stickiness) fails on the code: in the environment
c3Env DAGs 1 and 2 run as one batch; after the run DAG 1 carries a sticky
error while DAG 2, the last batch member, does not.  The run_error local
is overwritten on every iteration of the post-run loop (line 352), so it
ends up false, the evicted items are all pushed back to the front instead
of being freed, and the next pass issues another BatchedDagRunSessionStep
that includes the errored RunInfo 1. -/
theorem c3_error_not_sticky :
    (c3Env.dagState 1).dagError = true ∧
    runWorker c3Env 2 [1, 2] =
      [Event.runBatched [1, 2], Event.runBatched [1, 2]] ∧
    (stepBody c3Env [1, 2]).queue = [1, 2] ∧
    Event.freeItem 1 ∉ (stepBody c3Env [1, 2]).events := by
  decide

/-- Claim C4 (batch bound): every BatchedDagRunSessionStep invocation
executes a batch whose aggregate size along the 0-th dimension, the input
size of the head plus the contributions reported by the batching-match
interface for each accepted member, does not exceed the target batch size
of the head op, and meets the minimum batch size unless that minimum is
zero. -/
theorem c4_batch_bound (env : Env) (q : List RId) (rs : List RId)
    (hm : Event.runBatched rs ∈ (stepBody env q).events) :
    ∃ hd acc, rs = hd :: acc ∧
      batchAggregate env hd acc ≤ (env.batchInfo hd).batchsize ∧
      ((env.batchInfo hd).minbatchsize = 0 ∨
        (env.batchInfo hd).minbatchsize ≤ batchAggregate env hd acc) := by
  obtain ⟨hev, hd, a, l, hrs⟩ := runBatched_mem_step env q rs hm
  subst hrs
  have hb := scanLoop_batch_bounds env q false hd a l hev
  exact ⟨hd, a :: l, rfl, hb.1, hb.2⟩

/-- Witness for c4_batch_bound: in the environment c4Env the two queued
DAGs fuse into the batched run [1, 2], and the theorem applies to it. -/
theorem c4_witness :
    ∃ hd acc, ([1, 2] : List RId) = hd :: acc ∧
      batchAggregate c4Env hd acc ≤ (c4Env.batchInfo hd).batchsize ∧
      ((c4Env.batchInfo hd).minbatchsize = 0 ∨
        (c4Env.batchInfo hd).minbatchsize ≤ batchAggregate c4Env hd acc) :=
  c4_batch_bound c4Env [1, 2] [1, 2] (by decide)

/-- Claim C5 counterexample: in the environment c5Env the head DAG is
batchable with minimum batch size 3 but its tentative batch only reaches
aggregate size 1, and the next queued DAG is ready and not batchable.
The claim says the worker then goes to WAIT on the condition variable and
executes nothing; the code instead advances the scan to the next item and
executes it (a DagRunSessionStep for DAG 2), without waiting. -/
theorem c5_counterexample :
    ((c5Env.batchInfo 1).minbatchsize ≠ 0 ∧
      (batchScan c5Env 1 (c5Env.batchInfo 1).batchsize
        (c5Env.batchInfo 1).inbatchsize [2]).sum < (c5Env.batchInfo 1).minbatchsize) ∧
    (stepBody c5Env [1, 2]).waited = false ∧
    Event.runSingle 2 ∈ (stepBody c5Env [1, 2]).events := by
  decide

/-- Claim C5 as amended: after the batch-extension scan for a ready,
batchable head with a positive input size below the target, the batch
commits when the minimum batch size is zero or the aggregate size reaches
it; otherwise the worker discards the tentative batch and continues the
scan with the next queue item as the new head (keeping the abandoned head
in the queue), and it returns to WAIT on the condition variable exactly
when the scan falls off the end of the queue without any disposition. -/
theorem c5_min_batch_rule (env : Env) (c : Bool) (h : RId) (t : List RId)
    (h1 : (env.opInfo h).dagComplete = false)
    (h2 : (env.opInfo h).deviceComplete = false)
    (h3 : (env.opInfo h).ready = true)
    (h4 : (env.opInfo h).batchable = true)
    (h5 : (env.batchInfo h).inbatchsize ≠ 0)
    (h6 : (env.batchInfo h).inbatchsize < (env.batchInfo h).batchsize) :
    (((env.batchInfo h).minbatchsize = 0 ∨
        (env.batchInfo h).minbatchsize ≤
          (batchScan env h (env.batchInfo h).batchsize
            (env.batchInfo h).inbatchsize t).sum) →
      scanLoop env c (h :: t) =
        ⟨false, true, false, false,
          h :: (batchScan env h (env.batchInfo h).batchsize
            (env.batchInfo h).inbatchsize t).acc,
          (batchScan env h (env.batchInfo h).batchsize
            (env.batchInfo h).inbatchsize t).rest, false⟩) ∧
    (¬ ((env.batchInfo h).minbatchsize = 0 ∨
        (env.batchInfo h).minbatchsize ≤
          (batchScan env h (env.batchInfo h).batchsize
            (env.batchInfo h).inbatchsize t).sum) →
      scanLoop env c (h :: t) = withHeadRest h (scanLoop env true t)) ∧
    (stepBody env (h :: t)).waited = (scanLoop env false (h :: t)).isNull := by
  have hnb : ¬ ((env.batchInfo h).inbatchsize = 0 ∨
      (env.batchInfo h).batchsize ≤ (env.batchInfo h).inbatchsize) := by
    rintro (hz | hge)
    · exact h5 hz
    · exact Nat.not_le.mpr h6 hge
  refine ⟨?_, ?_, stepBody_waited env (h :: t)⟩
  · intro hmin
    simp only [scanLoop, h1, h2, h3, h4]
    simp only [if_neg hnb, if_pos hmin]
    simp
  · intro hmin
    simp only [scanLoop, h1, h2, h3, h4]
    simp only [if_neg hnb, if_neg hmin]
    simp

/-- Witness for c5_min_batch_rule at the environment c4Env, where the
head commits a batch of aggregate size 2 against a minimum of 2. -/
theorem c5_witness :
    (((c4Env.batchInfo 1).minbatchsize = 0 ∨
        (c4Env.batchInfo 1).minbatchsize ≤
          (batchScan c4Env 1 (c4Env.batchInfo 1).batchsize
            (c4Env.batchInfo 1).inbatchsize [2]).sum) →
      scanLoop c4Env false [1, 2] =
        ⟨false, true, false, false,
          1 :: (batchScan c4Env 1 (c4Env.batchInfo 1).batchsize
            (c4Env.batchInfo 1).inbatchsize [2]).acc,
          (batchScan c4Env 1 (c4Env.batchInfo 1).batchsize
            (c4Env.batchInfo 1).inbatchsize [2]).rest, false⟩) ∧
    (¬ ((c4Env.batchInfo 1).minbatchsize = 0 ∨
        (c4Env.batchInfo 1).minbatchsize ≤
          (batchScan c4Env 1 (c4Env.batchInfo 1).batchsize
            (c4Env.batchInfo 1).inbatchsize [2]).sum) →
      scanLoop c4Env false [1, 2] = withHeadRest 1 (scanLoop c4Env true [2])) ∧
    (stepBody c4Env [1, 2]).waited = (scanLoop c4Env false [1, 2]).isNull :=
  c5_min_batch_rule c4Env false 1 [2] (by decide) (by decide) (by decide)
    (by decide) (by decide) (by decide)

/-- Claim C6 (retry requeue demotes by exactly one slot): when the scan
ends in a retry disposition, the single evicted entry is pushed back so
that, if the remaining queue is non-empty, the previous front comes
first, the retried DAG second, and all other items keep their relative
order with no event emitted; if the remaining queue is empty, the DAG is
pushed back to the front alone and the worker sleeps for about one
millisecond, in both cases without returning to WAIT. -/
theorem c6_retry_requeue (env : Env) (q : List RId)
    (hr : (scanLoop env false q).do_retry = true) :
    ∃ r, (scanLoop env false q).evicted = [r] ∧
      (∀ x xs, (scanLoop env false q).rest = x :: xs →
        stepBody env q = ⟨x :: r :: xs, [], false⟩) ∧
      ((scanLoop env false q).rest = [] →
        stepBody env q = ⟨[r], [Event.sleepMs], false⟩) := by
  obtain ⟨hrun, hub, hdc, hnull, r, hev⟩ := scanLoop_retry_shape env q false hr
  refine ⟨r, hev, ?_, ?_⟩
  · intro x xs hrest
    rw [stepBody, reflect, if_neg (by rw [hnull]; simp), hev]
    simp [hrun, hub, hdc, hr, hrest, retryQueue, errorUnblocks]
  · intro hrest
    rw [stepBody, reflect, if_neg (by rw [hnull]; simp), hev]
    simp [hrun, hub, hdc, hr, hrest, retryQueue, errorUnblocks]

/-- Witness for c6_retry_requeue in the environment c6Env, where DAG 1 at
the front is not ready and DAG 2 waits behind it: the step demotes DAG 1
to the second slot. -/
theorem c6_witness :
    ∃ r, (scanLoop c6Env false [1, 2]).evicted = [r] ∧
      (∀ x xs, (scanLoop c6Env false [1, 2]).rest = x :: xs →
        stepBody c6Env [1, 2] = ⟨x :: r :: xs, [], false⟩) ∧
      ((scanLoop c6Env false [1, 2]).rest = [] →
        stepBody c6Env [1, 2] = ⟨[r], [Event.sleepMs], false⟩) :=
  c6_retry_requeue c6Env [1, 2] (by decide)

/-- Claim C7 (successful-run requeue preserves head): when the scan ends
in a run disposition and no member of the executed set has its error flag
set afterwards, all evicted items are pushed back to the front in their
original relative order, ahead of whatever the rest of the queue holds
after the unlocked run window, so the first-evicted item is the queue
head again and the worker does not return to WAIT. -/
theorem c7_run_requeue (env : Env) (q : List RId)
    (hrun : (scanLoop env false q).do_run = true)
    (herr : ∀ r ∈ (scanLoop env false q).evicted,
      (env.dagState r).dagError = false) :
    (stepBody env q).queue =
      (scanLoop env false q).evicted ++
        env.interference (scanLoop env false q).rest ∧
    (stepBody env q).waited = false := by
  obtain ⟨hretry, hdc, hnull, e0, es, hev⟩ := scanLoop_run_shape env q false hrun
  have hlast : lastError env (e0 :: es) = false := by
    apply lastError_eq_false
    intro r hrr
    exact herr r (hev ▸ hrr)
  rw [stepBody, reflect, if_neg (by rw [hnull]; simp), hev]
  simp [hrun, hretry, hlast, hev]

/-- Witness for c7_run_requeue in the environment c7Env: DAG 1 runs alone
without error and is pushed back on top of the remaining queue. -/
theorem c7_witness :
    (stepBody c7Env [1, 2]).queue =
      (scanLoop c7Env false [1, 2]).evicted ++
        c7Env.interference (scanLoop c7Env false [1, 2]).rest ∧
    (stepBody c7Env [1, 2]).waited = false :=
  c7_run_requeue c7Env [1, 2] (by decide) (by decide)

/-- Claim C8 (ensureRunQueue idempotent and case-insensitive): on an
initialised registry, two calls with device strings whose upper-cased
forms are byte-equal both return REDISMODULE_OK with the same
RunQueueInfo record, and the second call leaves the registry unchanged,
creating nothing new. -/
theorem c8_ensure_idempotent (st : RegistryState) (s1 s2 : String)
    (hinit : st.initialized = true)
    (hcase : strToUpper s1 = strToUpper s2) :
    ∃ v st1, ensureRunQueue true st s1 = (EnsureResult.ok v, st1) ∧
      ensureRunQueue true st1 s2 = (EnsureResult.ok v, st1) := by
  cases hl : lookupDevice (strToUpper s1) st.entries with
  | some v =>
    refine ⟨v, st, ?_, ?_⟩
    · simp [ensureRunQueue, hinit, hl]
    · simp [ensureRunQueue, hinit, ← hcase, hl]
  | none =>
    refine ⟨st.nextId,
      ⟨true, (strToUpper s1, st.nextId) :: st.entries, st.nextId + 1⟩, ?_, ?_⟩
    · simp [ensureRunQueue, hinit, hl]
    · simp [ensureRunQueue, lookupDevice, ← hcase]

/-- Witness for c8_ensure_idempotent on the empty initialised registry
with the device strings cpu and CPU. -/
theorem c8_witness :
    ∃ v st1, ensureRunQueue true regSt0 "cpu" = (EnsureResult.ok v, st1) ∧
      ensureRunQueue true st1 "CPU" = (EnsureResult.ok v, st1) :=
  c8_ensure_idempotent regSt0 "cpu" "CPU" (by decide) (by decide)

/-- Claim C9 (spawn-failure atomicity): on an initialised registry with
no entry for the normalised device name, a creation attempt whose worker
spawn fails returns REDISMODULE_ERR synchronously and leaves the registry
exactly as it was, so a later lookup for the same normalised name finds
no record from the failed call. -/
theorem c9_spawn_failure_atomic (st : RegistryState) (s : String)
    (hinit : st.initialized = true)
    (hnone : lookupDevice (strToUpper s) st.entries = none) :
    ensureRunQueue false st s = (EnsureResult.err, st) ∧
    lookupDevice (strToUpper s) ((ensureRunQueue false st s).2).entries = none := by
  have h1 : ensureRunQueue false st s = (EnsureResult.err, st) := by
    simp [ensureRunQueue, hinit, hnone]
  exact ⟨h1, by rw [h1]; exact hnone⟩

/-- Witness for c9_spawn_failure_atomic on the empty initialised registry
with the device string gpu. -/
theorem c9_witness :
    ensureRunQueue false regSt0 "gpu" = (EnsureResult.err, regSt0) ∧
    lookupDevice (strToUpper "gpu")
      ((ensureRunQueue false regSt0 "gpu").2).entries = none :=
  c9_spawn_failure_atomic regSt0 "gpu" (by decide) (by decide)

/-- Claim C10 (solo run when the head cannot extend a batch): when the
head op is ready and batchable but its own input size along the batch
dimension is zero or already at least the target batch size, the scan
evicts the head alone without attempting any batch extension, the run is
issued through the single DagRunSessionStep, and no batched call is
emitted; in particular a single op larger than the target still
executes. -/
theorem c10_solo_run (env : Env) (h : RId) (t : List RId)
    (h1 : (env.opInfo h).dagComplete = false)
    (h2 : (env.opInfo h).deviceComplete = false)
    (h3 : (env.opInfo h).ready = true)
    (h4 : (env.opInfo h).batchable = true)
    (h5 : (env.batchInfo h).inbatchsize = 0 ∨
          (env.batchInfo h).batchsize ≤ (env.batchInfo h).inbatchsize) :
    scanLoop env false (h :: t) = ⟨false, true, false, false, [h], t, false⟩ ∧
    Event.runSingle h ∈ (stepBody env (h :: t)).events ∧
    ∀ rs, Event.runBatched rs ∉ (stepBody env (h :: t)).events := by
  have hscan : scanLoop env false (h :: t) =
      ⟨false, true, false, false, [h], t, false⟩ := by
    simp only [scanLoop, h1, h2, h3, h4]
    simp [if_pos h5]
  refine ⟨hscan, ?_, ?_⟩
  · rw [stepBody, hscan, reflect]
    simp
  · intro rs hmem
    obtain ⟨hev, hd, a, l, hrs⟩ := runBatched_mem_step env (h :: t) rs hmem
    rw [hscan, hrs] at hev
    simp at hev

/-- Witness for c10_solo_run in the environment c10Env, where the head
input size 7 exceeds the target batch size 4 and the op still runs,
unbatched. -/
theorem c10_witness :
    scanLoop c10Env false [1, 2] = ⟨false, true, false, false, [1], [2], false⟩ ∧
    Event.runSingle 1 ∈ (stepBody c10Env [1, 2]).events ∧
    ∀ rs, Event.runBatched rs ∉ (stepBody c10Env [1, 2]).events :=
  c10_solo_run c10Env 1 [2] (by decide) (by decide) (by decide) (by decide)
    (by decide)

end BackgroundWorkers
